import Mathlib

/-!
Verification of the omnitrace tracing engine against its design description.

The development shallowly embeds the three callback pipelines of the tracer
(the roctracer HSA/HIP host-API callbacks, the asynchronous activity
callbacks, the per-thread deferred-work queues), the clock-skew reconciler,
the `OnLoad` lifecycle entry point, and the Python-facing module
(`initialize` and the interpreter trace adapter `profiler_function`).
External collaborators (the perfetto and timemory sinks, the roctracer
runtime, `std::regex`, the demangler) appear as parameters or as emitted
event lists; machine integers are modelled as `Nat`/`Int` with explicit
two's-complement reductions where the C++ performs unsigned arithmetic.
-/

/-! ## Clock reconciler (`get_clock_skew`, roctracer callbacks file) -/

/-- Width constant for `uint64_t` arithmetic. -/
def UINT64_CARD : Nat := 2 ^ 64

/-- Two's-complement reinterpretation of a `uint64_t` bit pattern as
`int64_t`, as performed by `static_cast<int64_t>` in `_compute`. -/
def toInt64 (n : Nat) : Int :=
  ((n : Int) + 2 ^ 63) % 2 ^ 64 - 2 ^ 63

/-- One sampling iteration of the skew loop: a host timestamp, then a
device timestamp, then a second host timestamp, in that order. -/
structure SkewSample where
  host1 : Nat
  device : Nat
  host2 : Nat

/-- The `_compute` lambda of `get_clock_skew`: the volatile `uint64_t`
accumulator receives `host1 / 2` plus `host2 / 2` (truncating unsigned
division on each sample separately), and the iteration value is the
`int64_t` difference against the device timestamp. -/
def skewCompute (s : SkewSample) : Int :=
  toInt64 ((s.host1 % UINT64_CARD) / 2 + (s.host2 % UINT64_CARD) / 2) -
    toInt64 (s.device % UINT64_CARD)

/-- The skew loop of `get_clock_skew`: `_diff` accumulates the ten
iteration values and is then divided by `_n = 10` with C++ `int64_t`
division (truncation toward zero, `Int.div`). -/
def computeSkewDiff (sample : Fin 10 → SkewSample) : Int :=
  Int.tdiv ((List.finRange 10).foldl (fun acc i => acc + skewCompute (sample i)) 0) 10

/-- `get_clock_skew`: the cached loop value is returned when the
`OMNITRACE_USE_ROCTRACER_CLOCK_SKEW` flag is set and `0` otherwise. -/
def get_clock_skew (use_skew : Bool) (sample : Fin 10 → SkewSample) : Int :=
  if use_skew then computeSkewDiff sample else 0

/-- The skew as the specification words it: the exact average over the ten
iterations of `avg(host1, host2) - device`, computed in the rationals. -/
def spec_clock_skew (sample : Fin 10 → SkewSample) : ℚ :=
  (((List.finRange 10).map
      (fun i => (((sample i).host1 : ℚ) + ((sample i).host2 : ℚ)) / 2 -
        ((sample i).device : ℚ))).sum) / 10

/-! ## Lifecycle controller (`OnLoad`) -/

/-- Registration side effects performed by `OnLoad`, in program order. -/
inductive LoadEffect where
  | pushSamplingOff
  | initToolingHidden
  | computeSkew
  | addSetupHsa
  | addShutdownHsa
  | rocmSmiActive
  | execSetupRoutines
  | popSampling
deriving DecidableEq

/-- `OnLoad`: when the `OMNITRACE_INIT_TOOLING` flag is false the function
returns immediately; otherwise it disables child-thread sampling, invokes
the external initializer when settings are unconfigured and the state is
below `Active`, caches the clock skew, registers the "hsa" setup and
shutdown routines, activates rocm-smi, executes the setup routines,
restores sampling, and returns. The first component is the boolean return
value, the second the list of registration effects performed. -/
def OnLoad (init_tooling : Bool) (settings_configured : Bool)
    (state_lt_active : Bool) : Bool × List LoadEffect :=
  if !init_tooling then (true, [])
  else
    (true,
      [LoadEffect.pushSamplingOff] ++
        (if !settings_configured && state_lt_active then
          [LoadEffect.initToolingHidden] else []) ++
        [LoadEffect.computeSkew, LoadEffect.addSetupHsa,
          LoadEffect.addShutdownHsa, LoadEffect.rocmSmiActive,
          LoadEffect.execSetupRoutines, LoadEffect.popSampling])

/-! ## Python module lifecycle (`libpyomnitrace.cpp`) -/

/-- Observable state of the Python module: the two static booleans and the
`OMNITRACE_COMMAND_LINE` environment variable. -/
structure PyModuleState where
  is_initialized : Bool
  is_finalized : Bool
  command_line_env : Option String
deriving DecidableEq

/-- Argument of the module-level session start: a single command string or
an argv list, matching the two pybind11 overload families. -/
inductive PyInitArg where
  | str (s : String)
  | argvList (l : List String)
deriving DecidableEq

/-- Calls forwarded to the external omnitrace core by the session start. -/
inductive PyEffect where
  | setMpi (use_mpi : Bool)
  | omniInit (cmd : String)
deriving DecidableEq

/-- The argv-list loop body `_cmd_line += " " + itr`: every element is
prepended with a single space and appended. -/
def concatCmdLine (l : List String) : String :=
  l.foldl (fun acc s => acc ++ " " ++ s) ""

/-- The argv-list loop body `if(_cmd.empty()) _cmd = itr`: the first
element at which the accumulator is still empty. -/
def firstNonempty (l : List String) : String :=
  l.foldl (fun acc s => if acc = "" then s else acc) ""

/-- The `initialize` binding: raises when the module is already
initialized; otherwise marks it initialized, forwards the MPI choice, and
for the argv-list overload builds `_cmd_line` by the space-prepending loop
and stores it in `OMNITRACE_COMMAND_LINE` when non-empty (the `set_env`
call uses overwrite = 0, so an existing value is kept; the
`substr(find_first_not_of(' '))` result in the source is discarded).
An `Except.error` models the thrown `std::runtime_error`; it is raised
before any state mutation. -/
def pyInitialize (use_mpi : Bool) (st : PyModuleState) (arg : PyInitArg) :
    Except String (PyModuleState × List PyEffect) :=
  if st.is_initialized then
    Except.error "Error! omnitrace is already initialized"
  else
    match arg with
    | PyInitArg.str s =>
        Except.ok ({ st with is_initialized := true },
          [PyEffect.setMpi use_mpi, PyEffect.omniInit s])
    | PyInitArg.argvList l =>
        let cmd := firstNonempty l
        let cmd_line := concatCmdLine l
        let env' := if cmd_line ≠ "" then
            (match st.command_line_env with
              | none => some cmd_line
              | some v => some v)
          else st.command_line_env
        Except.ok ({ st with is_initialized := true, command_line_env := env' },
          [PyEffect.setMpi use_mpi, PyEffect.omniInit cmd])

/-- The `finalize` binding: raises when already finalized, otherwise marks
the module finalized. -/
def pyFinalize (st : PyModuleState) : Except String PyModuleState :=
  if st.is_finalized then
    Except.error "Error! omnitrace is already finalized"
  else
    Except.ok { st with is_finalized := true }

/-! ## Per-thread activity queue drain (`hip_exec_activity_callbacks`)

The queue holds `std::function<void()>` closures, possibly empty ones;
closures are identified here by numeric ids and an empty `std::function`
is a `none` entry. The whole per-thread slot is itself optional (the
`thread_data` instance may not have been constructed). The drain is
modelled by the list of atomic actions it performs, in program order:
`tim::auto_lock_t` acquires the per-thread mutex on construction and
releases it when the scope ends, that is after the loop and the `clear`. -/

/-- Atomic actions performed by the drain, in order of occurrence. -/
inductive DrainAction where
  | lockAcquire
  | execClosure (k : Nat)
  | clearQueue
  | lockRelease
deriving DecidableEq

/-- `hip_exec_activity_callbacks`: acquire the per-thread mutex, return if
the slot is absent, otherwise run every non-empty closure in insertion
order, clear the queue, and release the mutex at scope exit. Returns the
action trace and the resulting queue state. -/
def hip_exec_activity_callbacks (queue : Option (List (Option Nat))) :
    List DrainAction × Option (List (Option Nat)) :=
  match queue with
  | none => ([DrainAction.lockAcquire, DrainAction.lockRelease], none)
  | some q =>
      ([DrainAction.lockAcquire] ++
        (q.filterMap id).map DrainAction.execClosure ++
        [DrainAction.clearQueue, DrainAction.lockRelease], some [])

/-- Recognizer for closure-execution actions. -/
def isExecAction : DrainAction → Bool
  | DrainAction.execClosure _ => true
  | _ => false

/-- Closure ids executed along a drain trace, in execution order. -/
def execedClosures (tr : List DrainAction) : List Nat :=
  tr.filterMap (fun a =>
    match a with
    | DrainAction.execClosure k => some k
    | _ => none)

/-- The discipline the specification describes: every closure execution
happens only after the lock has been released. -/
def execsOutsideLock (tr : List DrainAction) : Prop :=
  ∀ i : Fin tr.length, isExecAction (tr.get i) →
    ∃ j : Fin tr.length, (j : Nat) < (i : Nat) ∧ tr.get j = DrainAction.lockRelease

/-! ## HSA API callback (`hsa_api_callback`)

The callback is invoked with ENTER/EXIT phases; the begin timestamp is a
thread-local recorded on ENTER. API ids in the large book-keeping case
list are filtered before any work (`filtered` abstracts membership in
that list of external `HSA_API_ID` constants). On EXIT the end timestamp
is the current wall clock, except for `hsa_shut_down` where it is the
begin timestamp itself. -/

/-- Phase of a host-API callback invocation. -/
inductive ApiPhase where
  | enter
  | exit
deriving DecidableEq

/-- Events the HSA exit path hands to the sinks: a perfetto begin/end pair
on the "device" track, and a timemory sample storing the duration. -/
inductive HsaOut where
  | perfettoSpan (name : String) (begin_ts end_ts : Int)
  | timemorySample (name : String) (delta : Int)
deriving DecidableEq

/-- Exit-phase tail of `hsa_api_callback`: computes the end timestamp,
drops the event entirely on timestamp inversion, and otherwise emits the
perfetto pair and, when the timemory task pool is alive, the deferred
duration sample. -/
def hsa_api_exit (usePerfetto useTimemory poolAlive : Bool) (isShutDown : Bool)
    (begin_ts now : Int) (name : String) : List HsaOut :=
  let end_ts := if isShutDown then begin_ts else now
  if begin_ts > end_ts then []
  else
    (if usePerfetto then [HsaOut.perfettoSpan name begin_ts end_ts] else []) ++
      (if useTimemory && poolAlive then
        [HsaOut.timemorySample name (end_ts - begin_ts)] else [])

/-- `hsa_api_callback` for one invocation: filtered ids do nothing; ENTER
records the wall clock into the thread-local begin timestamp; EXIT leaves
the thread-local unchanged and emits the exit events. Returns the new
thread-local begin timestamp and the emitted events. -/
def hsa_api_callback (usePerfetto useTimemory poolAlive : Bool)
    (filtered : Bool) (isShutDown : Bool) (phase : ApiPhase)
    (begin_state now : Int) (name : String) : Int × List HsaOut :=
  if filtered then (begin_state, [])
  else
    match phase with
    | ApiPhase.enter => (now, [])
    | ApiPhase.exit =>
        (begin_state,
          hsa_api_exit usePerfetto useTimemory poolAlive isShutDown begin_state now name)

/-! ## HIP API callback (`hip_api_callback`)

One invocation per phase. A handful of API ids (`__hipPushCallConfiguration`,
`__hipPopCallConfiguration`, `hipDeviceEnablePeerAccess`, and on recent HIP
versions the external-memory import/destroy pair) return before any work;
`filtered` abstracts membership in that list of external constants. The
resolved op name may be null (`op_name`), in which case the callback
returns. ENTER inserts the correlation id into the cid registry (with the
causal triple from the external allocator) and emits the perfetto BEGIN
annotated with the correlation id; EXIT looks the correlation id up with
`unordered_map::at`, which throws when absent — modelled as `none` — and
emits the perfetto END at the current wall clock. -/

/-- One invocation of the HIP API callback. -/
structure HipInvocation where
  filtered : Bool
  phase : ApiPhase
  corr_id : Nat
  ts : Nat
  op_name : Option String
deriving DecidableEq

/-- Host-side perfetto events emitted by the HIP API callback; the END
event is tagged with the correlation id of the invocation emitting it. -/
inductive HipApiEvent where
  | beginEv (corr_id : Nat) (ts : Nat)
  | endEv (corr_id : Nat) (ts : Nat)
deriving DecidableEq

/-- Correlation id carried by a host-side event. -/
def evCorr : HipApiEvent → Nat
  | HipApiEvent.beginEv c _ => c
  | HipApiEvent.endEv c _ => c

/-- Perfetto events emitted by one invocation (empty when perfetto is
disabled, the id is filtered, or the op name is null). -/
def hipEventsOf (usePerfetto : Bool) (inv : HipInvocation) : List HipApiEvent :=
  if inv.filtered then []
  else if inv.op_name = none then []
  else if usePerfetto then
    match inv.phase with
    | ApiPhase.enter => [HipApiEvent.beginEv inv.corr_id inv.ts]
    | ApiPhase.exit => [HipApiEvent.endEv inv.corr_id inv.ts]
  else []

/-- State transition of one invocation over the cid registry (the set of
correlation ids with a stored causal triple). EXIT on an unregistered
correlation id is the throwing `at` lookup, modelled as `none`. -/
def hip_api_step (usePerfetto : Bool) (st : List Nat) (inv : HipInvocation) :
    Option (List Nat × List HipApiEvent) :=
  if inv.filtered then some (st, hipEventsOf usePerfetto inv)
  else if inv.op_name = none then some (st, hipEventsOf usePerfetto inv)
  else
    match inv.phase with
    | ApiPhase.enter => some (inv.corr_id :: st, hipEventsOf usePerfetto inv)
    | ApiPhase.exit =>
        if inv.corr_id ∈ st then some (st, hipEventsOf usePerfetto inv)
        else none

/-- Processing of a sequence of invocations delivered to one thread. -/
def hip_api_run (usePerfetto : Bool) (st : List Nat) :
    List HipInvocation → Option (List Nat × List HipApiEvent)
  | [] => some (st, [])
  | inv :: rest =>
      match hip_api_step usePerfetto st inv with
      | none => none
      | some (st', evs) =>
          match hip_api_run usePerfetto st' rest with
          | none => none
          | some (st'', evs') => some (st'', evs ++ evs')

/-! ## Activity callback (`hip_activity_callback`)

Per-record processing. The source asserts `HIP_OP_ID_DISPATCH == 0`,
`HIP_OP_ID_COPY == 1`, `HIP_OP_ID_BARRIER == 2`, so those values are used
directly; the `ACTIVITY_DOMAIN_HIP_OPS` constant, the runtime op-string
helper and the demangler are external and appear as parameters. The
critical-trace sink is outside the modelled sinks. -/

/-- Fixed-layout activity record delivered by the runtime. -/
structure ActivityRecord where
  domain : Nat
  op : Nat
  kind : Nat
  begin_ns : Nat
  end_ns : Nat
  correlation_id : Nat
  device_id : Nat
  queue_id : Nat
  process_id : Nat
deriving DecidableEq

/-- Correlation Registry contents read by the activity callback. -/
structure ActRegistry where
  keys : List (Nat × String)
  tids : List (Nat × Nat)
  cids : List (Nat × (Nat × Nat × Nat))

/-- `uint64_t` addition of a signed skew to an unsigned timestamp. -/
def u64wrap (n : Int) : Nat :=
  (n % ((2 : Int) ^ 64)).toNat

/-- The `_op_id_names` array indexed by the record op (`op ≤ 2` holds at
every use site thanks to the barrier guard). -/
def opIdName (op : Nat) : String :=
  (["DISPATCH", "COPY", "BARRIER"].getD op "")

/-- Device-timeline span emitted inline by the activity callback on the
thread running the callback. -/
structure DeviceSpan where
  name : String
  thread : Nat
  begin_ns : Nat
  end_ns : Nat
  corr_id : Nat
  flow_cid : Nat
  device : Nat
  queue : Nat
  op_label : String
deriving DecidableEq

/-- One record of `hip_activity_callback`: skip foreign domains and ops
beyond BARRIER; skew-correct the timestamps; look the correlation id up in
the registry (origin thread and kernel name when present, otherwise fall
back to the runtime op string); emit the perfetto span inline on the
current thread; and, only when the registry lookup succeeded and timemory
is enabled, append the deferred duration closure to the origin thread's
activity queue. Returns the inline spans and the `(origin thread, name,
begin, end)` closures appended. -/
def hip_activity_record (opString : Nat → Nat → Nat → Option String)
    (demangle : String → String) (hipOpsDomain : Nat)
    (usePerfetto useTimemory critTrace : Bool) (curTid : Nat) (skew : Int)
    (reg : ActRegistry) (r : ActivityRecord) :
    List DeviceSpan × List (Nat × String × Nat × Nat) :=
  if r.domain ≠ hipOpsDomain then ([], [])
  else if r.op > 2 then ([], [])
  else
    let op_name := opString r.domain r.op r.kind
    let beg := u64wrap ((r.begin_ns : Int) + skew)
    let en := u64wrap ((r.end_ns : Int) + skew)
    let tidEntry := reg.tids.lookup r.correlation_id
    let found := tidEntry.isSome
    let tid := tidEntry.getD 0
    let stored_name := if found then reg.keys.lookup r.correlation_id else none
    match stored_name.or op_name with
    | none => ([], [])
    | some name =>
        let flow := if critTrace then
            (match reg.cids.lookup r.correlation_id with
              | some (cid, _, _) => cid
              | none => 0)
          else 0
        let spans := if usePerfetto then
            [{ name := demangle name, thread := curTid, begin_ns := beg,
               end_ns := en, corr_id := r.correlation_id, flow_cid := flow,
               device := r.device_id, queue := r.queue_id,
               op_label := opIdName r.op }]
          else []
        let deferred := if found && useTimemory then [(tid, name, beg, en)] else []
        (spans, deferred)

/-! ## Interpreter trace adapter (`profiler_function`, `libpyomnitrace.cpp`)

The per-thread configuration carries the flags, the `ignore_stack_depth`
counter, the six regex collections, and the stack of pending pop closures
(`records`, held here as the labels the closures would pop). Regexes live
in `std::regex`, an external engine: each pattern is modelled by its
matching predicate `String → Bool`, and `_find_matching` by `List.any`.
The static `default_exclude_functions` set is likewise a predicate
parameter, and the statically captured `_omnitrace_path` a string
parameter. -/

/-- The four interpreter event kinds the adapter supports. -/
inductive PyWhat where
  | callEv
  | cCallEv
  | returnEv
  | cReturnEv
deriving DecidableEq

/-- One interpreter event as seen by the adapter: the frame may be absent,
the event string may map to none of the four kinds, and the frame carries
the function name, the filename, the current line and the formatted
argument string (the value the external `inspect` call would return). -/
structure PyEvent where
  frameNone : Bool
  what : Option PyWhat
  funcName : String
  fullPath : String
  lineno : Nat
  argsStr : String
deriving DecidableEq

/-- Per-thread interpreter configuration and mutable state. -/
structure PyProfConfig where
  trace_c : Bool
  include_internal : Bool
  include_args : Bool
  include_line : Bool
  include_filename : Bool
  full_filepath : Bool
  ignore_stack_depth : Int
  restrict_functions : List (String → Bool)
  restrict_filenames : List (String → Bool)
  include_functions : List (String → Bool)
  include_filenames : List (String → Bool)
  exclude_functions : List (String → Bool)
  exclude_filenames : List (String → Bool)
  records : List String

/-- Region events handed to the sink layer. -/
inductive RegionEvent where
  | push (label : String)
  | pop (label : String)
deriving DecidableEq

/-- `_find_matching`: true when any pattern in the collection matches. -/
def findMatching (ps : List (String → Bool)) (s : String) : Bool :=
  ps.any (fun p => p s)

/-- `_update_ignore_stack_depth`: CALL increments, RETURN decrements, the
C variants leave the counter unchanged. -/
def updateIgnoreDepth (what : PyWhat) (d : Int) : Int :=
  match what with
  | PyWhat.callEv => d + 1
  | PyWhat.returnEv => d - 1
  | _ => d

/-- `substr(find_last_of('/') + 1)`: the basename of a path, the whole
string when it contains no slash. -/
def basenameOf (full : String) : String :=
  (full.splitOn "/").getLastD full

/-- `_get_label`: the function name, optionally bracketed and suffixed
with the argument string, the (base or full) filename and the line
number, exactly in the order the source appends them. -/
def buildLabel (cfg : PyProfConfig) (ev : PyEvent) : String :=
  let f0 := ev.funcName
  let f1 := if cfg.include_filename then "[" ++ f0 else f0
  let f2 := if cfg.include_args then f1 ++ ev.argsStr else f1
  let f3 := if cfg.include_filename then f2 ++ "]" else f2
  let path := if cfg.full_filepath then ev.fullPath else basenameOf ev.fullPath
  let f4 := if cfg.include_filename then f3 ++ "[" ++ path else f3
  if cfg.include_line && cfg.include_filename then
    f4 ++ ":" ++ toString ev.lineno ++ "]"
  else if cfg.include_line then f4 ++ ":" ++ toString ev.lineno
  else if cfg.include_filename then f4 ++ "]"
  else f4

/-- `profiler_function` for one event. The phases, in source order: frame
and event-kind guards; the ignore-stack short-circuit (with CALL/RETURN
delta); the C-event gate; the function-name filters (restrict, then
include, then exclude with the default-set-sensitive ignore-stack
adjustment); the internal-path filter; the filename filters (restrict,
then include/exclude); label construction; and finally the push of a pop
closure plus `push_region` on CALL, or `records.back()()` plus `pop_back`
on RETURN. `records.back()` on an empty vector is undefined behaviour and
is modelled as `none`. -/
def profiler_function (omniPath : String) (defaultExclude : String → Bool)
    (cfg : PyProfConfig) (ev : PyEvent) :
    Option (PyProfConfig × List RegionEvent) :=
  if ev.frameNone then some (cfg, [])
  else
    match ev.what with
    | none => some (cfg, [])
    | some what =>
        if cfg.ignore_stack_depth > 0 then
          some ({ cfg with
            ignore_stack_depth := updateIgnoreDepth what cfg.ignore_stack_depth }, [])
        else if !cfg.trace_c && (what == PyWhat.cCallEv || what == PyWhat.cReturnEv) then
          some (cfg, [])
        else
          let func := ev.funcName
          let force0 := !cfg.restrict_functions.isEmpty &&
            findMatching cfg.restrict_functions func
          if !cfg.restrict_functions.isEmpty && !force0 then some (cfg, [])
          else if !force0 && !findMatching cfg.include_functions func &&
              findMatching cfg.exclude_functions func then
            if !defaultExclude func then
              some ({ cfg with
                ignore_stack_depth := updateIgnoreDepth what cfg.ignore_stack_depth }, [])
            else some (cfg, [])
          else
            let force1 := force0 || findMatching cfg.include_functions func
            let full := ev.fullPath
            if !cfg.include_internal && full.startsWith omniPath then some (cfg, [])
            else
              let force2 := force1 || (!cfg.restrict_filenames.isEmpty &&
                findMatching cfg.restrict_filenames full)
              if !force1 && !cfg.restrict_filenames.isEmpty &&
                  !findMatching cfg.restrict_filenames full then
                some (cfg, [])
              else if !force2 && !findMatching cfg.include_filenames full &&
                  findMatching cfg.exclude_filenames full then
                some (cfg, [])
              else
                let label := buildLabel cfg ev
                if label = "" then some (cfg, [])
                else
                  match what with
                  | PyWhat.callEv | PyWhat.cCallEv =>
                      some ({ cfg with records := cfg.records ++ [label] },
                        [RegionEvent.push label])
                  | PyWhat.returnEv | PyWhat.cReturnEv =>
                      match cfg.records.getLast? with
                      | none => none
                      | some top =>
                          some ({ cfg with records := cfg.records.dropLast },
                            [RegionEvent.pop top])

/-- Processing of a sequence of interpreter events on one thread. -/
def profiler_run (omniPath : String) (defaultExclude : String → Bool)
    (cfg : PyProfConfig) : List PyEvent → Option (PyProfConfig × List RegionEvent)
  | [] => some (cfg, [])
  | e :: rest =>
      match profiler_function omniPath defaultExclude cfg e with
      | none => none
      | some (cfg', out) =>
          match profiler_run omniPath defaultExclude cfg' rest with
          | none => none
          | some (cfg'', outs) => some (cfg'', out ++ outs)

/-! ## Theorems -/

/-- Folding additions of mapped values equals the sum of the mapped list. -/
theorem foldl_add_eq_sum {α : Type} (f : α → Int) (l : List α) (a : Int) :
    l.foldl (fun acc i => acc + f i) a = a + (l.map f).sum := by
  induction l generalizing a with
  | nil => simp
  | cons x xs ih => simp [ih, add_assoc]

/-- Claim C4 counterexample: with every host sample equal to 1 and every
device sample equal to 0, the code computes skew 0 (each host timestamp is
halved with truncating unsigned division before the two halves are added),
while the average of `avg(host1, host2) - device` over the ten iterations
is 1. -/
theorem get_clock_skew_avg_counterexample :
    ((get_clock_skew true (fun _ => ⟨1, 0, 1⟩) : Int) : ℚ) ≠
      spec_clock_skew (fun _ => ⟨1, 0, 1⟩) := by
  have h1 : get_clock_skew true (fun _ => (⟨1, 0, 1⟩ : SkewSample)) = 0 := by decide
  have hfr : List.finRange 10 = ([0, 1, 2, 3, 4, 5, 6, 7, 8, 9] : List (Fin 10)) := by
    decide
  have h2 : spec_clock_skew (fun _ => (⟨1, 0, 1⟩ : SkewSample)) = 1 := by
    unfold spec_clock_skew
    rw [hfr]
    norm_num
  rw [h1, h2]
  norm_num

/-- Claim C4, amended: the value returned by `get_clock_skew` when the
`OMNITRACE_USE_ROCTRACER_CLOCK_SKEW` flag is set equals the sum over the
ten iterations of `host1 / 2 + host2 / 2 - device` (truncating unsigned
halving of each host sample separately) divided by 10 with truncation
toward zero; when the flag is false the function returns 0. -/
theorem get_clock_skew_amended (sample : Fin 10 → SkewSample) :
    get_clock_skew true sample =
      Int.tdiv (((List.finRange 10).map (fun i => skewCompute (sample i))).sum) 10 ∧
    get_clock_skew false sample = 0 := by
  refine ⟨?_, rfl⟩
  have h : computeSkewDiff sample =
      Int.tdiv (((List.finRange 10).map (fun i => skewCompute (sample i))).sum) 10 := by
    unfold computeSkewDiff
    rw [foldl_add_eq_sum (fun i => skewCompute (sample i)) (List.finRange 10) 0,
      zero_add]
  simpa [get_clock_skew] using h

/-- Claim C5 counterexample: with `OMNITRACE_INIT_TOOLING` false, `OnLoad`
returns `true` (not `false`) while performing no registration. -/
theorem OnLoad_flag_false_counterexample :
    (OnLoad false true true).1 = true ∧ (OnLoad false true true).2 = [] :=
  ⟨rfl, rfl⟩

/-- Claim C5, amended: `OnLoad` returns `true` on every path; when the
`OMNITRACE_INIT_TOOLING` flag is false it still returns `true` but
performs no registration. -/
theorem OnLoad_returns_true (init_tooling settings_configured state_lt_active : Bool) :
    (OnLoad init_tooling settings_configured state_lt_active).1 = true ∧
      (init_tooling = false →
        (OnLoad init_tooling settings_configured state_lt_active).2 = []) := by
  cases init_tooling <;> simp [OnLoad]

/-- Witness for the amended C5 theorem at a concrete input. -/
theorem OnLoad_returns_true_witness :
    (OnLoad false false false).1 = true ∧ (OnLoad false false false).2 = [] :=
  ⟨(OnLoad_returns_true false false false).1,
    (OnLoad_returns_true false false false).2 rfl⟩

/-- Claim C6: from an uninitialized module state, `initialize` succeeds
(never raises) and marks the module initialized; a second call on the
resulting state raises the already-initialized error, and since the throw
precedes every state mutation the session established by the first call
remains in effect. -/
theorem pyInitialize_double_call (m m' : Bool) (st : PyModuleState)
    (a a' : PyInitArg) (h : st.is_initialized = false) :
    ∃ st' effs, pyInitialize m st a = Except.ok (st', effs) ∧
      st'.is_initialized = true ∧
      pyInitialize m' st' a' =
        Except.error "Error! omnitrace is already initialized" := by
  cases a with
  | str s =>
      refine ⟨{ st with is_initialized := true },
        [PyEffect.setMpi m, PyEffect.omniInit s], ?_, rfl, ?_⟩
      · simp [pyInitialize, h]
      · simp [pyInitialize]
  | argvList l =>
      refine ⟨({ st with
                 is_initialized := true,
                 command_line_env :=
                   if concatCmdLine l ≠ "" then
                     (match st.command_line_env with
                       | none => some (concatCmdLine l)
                       | some v => some v)
                   else st.command_line_env } : PyModuleState),
        [PyEffect.setMpi m, PyEffect.omniInit (firstNonempty l)], ?_, rfl, ?_⟩
      · simp [pyInitialize, h]
      · simp [pyInitialize]

/-- Witness for the C6 theorem at a concrete input. -/
theorem pyInitialize_double_call_witness :
    ∃ st' effs,
      pyInitialize false (PyModuleState.mk false false none) (PyInitArg.str "app") =
          Except.ok (st', effs) ∧
        st'.is_initialized = true ∧
        pyInitialize true st' (PyInitArg.argvList ["app"]) =
          Except.error "Error! omnitrace is already initialized" :=
  pyInitialize_double_call false true (PyModuleState.mk false false none)
    (PyInitArg.str "app") (PyInitArg.argvList ["app"]) rfl

/-- Claim C9, evaluation at the failing input: for argv `["a", "b"]` the
value stored in `OMNITRACE_COMMAND_LINE` is `" a b"` — each element is
appended after a space and the `substr` stripping the leading space is
discarded — which differs from the single-space concatenation `"a b"`. -/
theorem pyInitialize_cmdline_leading_space :
    pyInitialize false ⟨false, false, none⟩ (PyInitArg.argvList ["a", "b"]) =
      Except.ok (⟨true, false, some " a b"⟩,
        [PyEffect.setMpi false, PyEffect.omniInit "a"]) ∧
      (" a b" : String) ≠ "a b" :=
  ⟨rfl, by decide⟩

/-- Claim C7: in the HSA API callback, an exit whose recorded begin
timestamp exceeds the end timestamp emits no event at all — the pair is
dropped before either sink is reached. -/
theorem hsa_inversion_drop (usePerfetto useTimemory poolAlive : Bool)
    (isShutDown : Bool) (begin_state now : Int) (name : String)
    (h : begin_state > (if isShutDown then begin_state else now)) :
    (hsa_api_callback usePerfetto useTimemory poolAlive false isShutDown
        ApiPhase.exit begin_state now name).2 = [] := by
  simp [hsa_api_callback, hsa_api_exit, h]

/-- Witness for the C7 theorem at a concrete input. -/
theorem hsa_inversion_drop_witness :
    (hsa_api_callback true true true false false ApiPhase.exit 5 3
        "hsa_queue_create").2 = [] :=
  hsa_inversion_drop true true true false 5 3 "hsa_queue_create" (by norm_num)

/-- Claim C3 counterexample: draining a queue holding one closure executes
that closure strictly between the lock acquisition and the lock release,
so the closure is not executed outside the lock as the claim states. -/
theorem drain_outside_lock_counterexample :
    ¬ execsOutsideLock (hip_exec_activity_callbacks (some [some 0])).1 := by
  unfold execsOutsideLock
  decide

/-- Closure-execution actions of a concatenated trace. -/
theorem execedClosures_append (a b : List DrainAction) :
    execedClosures (a ++ b) = execedClosures a ++ execedClosures b :=
  List.filterMap_append a b _

/-- A trace of pure closure executions executes exactly those closures. -/
theorem execedClosures_map_exec (l : List Nat) :
    execedClosures (l.map DrainAction.execClosure) = l := by
  induction l with
  | nil => rfl
  | cons x xs ih =>
      simp only [List.map_cons, execedClosures, List.filterMap_cons] at *
      rw [ih]

/-- Claim C3, amended: the drain runs every non-empty closure in FIFO
(insertion) order and afterwards the queue is empty, but the closures are
executed while the per-thread mutex is held — the whole trace sits between
the single lock acquisition and the single release, which happens last. -/
theorem drain_fifo_under_lock (q : List (Option Nat)) :
    (hip_exec_activity_callbacks (some q)).2 = some [] ∧
    execedClosures (hip_exec_activity_callbacks (some q)).1 = q.filterMap id ∧
    ∃ body, (hip_exec_activity_callbacks (some q)).1 =
        DrainAction.lockAcquire :: body ++ [DrainAction.lockRelease] ∧
      DrainAction.lockRelease ∉ body := by
  refine ⟨rfl, ?_,
    ⟨(q.filterMap id).map DrainAction.execClosure ++ [DrainAction.clearQueue],
      ?_, ?_⟩⟩
  · show execedClosures ([DrainAction.lockAcquire] ++
        (q.filterMap id).map DrainAction.execClosure ++
        [DrainAction.clearQueue, DrainAction.lockRelease]) = q.filterMap id
    rw [execedClosures_append, execedClosures_append, execedClosures_map_exec]
    simp [execedClosures]
  · simp [hip_exec_activity_callbacks]
  · simp

/-- Claim C2: for an activity record in the device-ops domain with op not
beyond BARRIER whose correlation id has no origin-thread entry in the
Correlation Registry, the callback emits exactly one span, named by the
runtime's op-string helper (demangled through the kernel-name cache),
carried on the thread the callback runs on, and appends no deferred
closure to any origin thread's queue. -/
theorem activity_unknown_corr_fallback (opString : Nat → Nat → Nat → Option String)
    (demangle : String → String) (hipOpsDomain : Nat)
    (useTimemory critTrace : Bool) (curTid : Nat) (skew : Int)
    (reg : ActRegistry) (r : ActivityRecord) (nm : String)
    (hdom : r.domain = hipOpsDomain) (hop : r.op ≤ 2)
    (hmiss : reg.tids.lookup r.correlation_id = none)
    (hname : opString r.domain r.op r.kind = some nm) :
    hip_activity_record opString demangle hipOpsDomain true useTimemory critTrace
        curTid skew reg r =
      ([{ name := demangle nm, thread := curTid,
          begin_ns := u64wrap ((r.begin_ns : Int) + skew),
          end_ns := u64wrap ((r.end_ns : Int) + skew),
          corr_id := r.correlation_id,
          flow_cid := if critTrace then
              (match reg.cids.lookup r.correlation_id with
                | some (cid, _, _) => cid
                | none => 0)
            else 0,
          device := r.device_id, queue := r.queue_id,
          op_label := opIdName r.op }], []) := by
  subst hdom
  have h2 : ¬ (r.op > 2) := by omega
  simp [hip_activity_record, h2, hmiss, hname, Option.or]

/-- Witness for the C2 theorem at the concrete scenario of the
specification: a COPY record with correlation id 999 never seen in the
registry yields one span named "COPY" on the current thread. -/
theorem activity_unknown_corr_fallback_witness :
    hip_activity_record (fun _ _ _ => some "COPY") (fun s => s) 2 true false false
        7 0 ⟨[], [], []⟩ ⟨2, 1, 0, 1000, 2000, 999, 0, 4, 0⟩ =
      ([{ name := "COPY", thread := 7, begin_ns := 1000, end_ns := 2000,
          corr_id := 999, flow_cid := 0, device := 0, queue := 4,
          op_label := "COPY" }], []) := by
  have h := activity_unknown_corr_fallback (fun _ _ _ => some "COPY") (fun s => s) 2
    false false 7 0 ⟨[], [], []⟩ ⟨2, 1, 0, 1000, 2000, 999, 0, 4, 0⟩ "COPY"
    rfl (by norm_num) rfl rfl
  simpa [u64wrap, opIdName] using h

/-- Events of a completed step are the per-invocation events. -/
theorem hip_api_step_events (up : Bool) (st st' : List Nat) (inv : HipInvocation)
    (evs : List HipApiEvent) (h : hip_api_step up st inv = some (st', evs)) :
    evs = hipEventsOf up inv := by
  unfold hip_api_step at h
  split at h
  · cases h; rfl
  · split at h
    · cases h; rfl
    · split at h
      · cases h; rfl
      · split at h
        · cases h; rfl
        · cases h

/-- Events of a completed run are the concatenation of the
per-invocation events, in delivery order. -/
theorem hip_api_run_events (up : Bool) :
    ∀ (l : List HipInvocation) (st st' : List Nat) (evs : List HipApiEvent),
      hip_api_run up st l = some (st', evs) →
      evs = l.flatMap (hipEventsOf up) := by
  intro l
  induction l with
  | nil =>
      intro st st' evs h
      simp [hip_api_run] at h
      simp [h.2]
  | cons inv rest ih =>
      intro st st' evs h
      rw [hip_api_run] at h
      cases hstep : hip_api_step up st inv with
      | none => simp only [hstep] at h; cases h
      | some p =>
          obtain ⟨st1, evs1⟩ := p
          simp only [hstep] at h
          cases hrun : hip_api_run up st1 rest with
          | none => simp only [hrun] at h; cases h
          | some q =>
              obtain ⟨st2, evs2⟩ := q
              simp only [hrun, Option.some.injEq, Prod.mk.injEq] at h
              rw [List.flatMap_cons,
                ← hip_api_step_events up st st1 inv evs1 hstep,
                ← ih st1 st2 evs2 hrun]
              exact h.2.symm

/-- Every event of an invocation carries that invocation's correlation
id, so filtering by a correlation id keeps either all or none of them. -/
theorem hipEventsOf_filter (up : Bool) (c : Nat) (inv : HipInvocation) :
    (hipEventsOf up inv).filter (fun e => evCorr e == c) =
      if inv.corr_id = c then hipEventsOf up inv else [] := by
  obtain ⟨f, ph, corr, ts, nm⟩ := inv
  cases ph <;> by_cases hc : corr = c <;>
    simp only [hipEventsOf] <;> split_ifs <;> simp [evCorr, hc]

/-- Filtering the emitted events by a correlation id is the same as
keeping only the invocations with that correlation id. -/
theorem flatMap_filter_corr (up : Bool) (c : Nat) :
    ∀ l : List HipInvocation,
      (l.flatMap (hipEventsOf up)).filter (fun e => evCorr e == c) =
        (l.filter (fun inv => inv.corr_id == c)).flatMap (hipEventsOf up) := by
  intro l
  induction l with
  | nil => rfl
  | cons x xs ih =>
      rw [List.flatMap_cons, List.filter_append, ih, List.filter_cons,
        hipEventsOf_filter]
      by_cases hc : x.corr_id = c
      · simp [hc]
      · simp [hc]

/-- Claim C1: when the runtime delivers, for correlation id `c`, exactly
one unfiltered ENTER followed later by one unfiltered EXIT (with resolved
op names) on a thread whose invocation timestamps are monotone, and the
whole sequence is processed without fault, the emitted host events for `c`
are exactly one BEGIN at the ENTER timestamp followed by one END at the
EXIT timestamp, and the END timestamp is at least the BEGIN timestamp. -/
theorem hip_begin_end_paired (trace : List HipInvocation) (st st' : List Nat)
    (evs : List HipApiEvent) (c t1 t2 : Nat) (n1 n2 : String)
    (hrun : hip_api_run true st trace = some (st', evs))
    (hfilter : trace.filter (fun inv => inv.corr_id == c) =
      [⟨false, ApiPhase.enter, c, t1, some n1⟩,
       ⟨false, ApiPhase.exit, c, t2, some n2⟩])
    (hmono : trace.Pairwise (fun a b => a.ts ≤ b.ts)) :
    evs.filter (fun e => evCorr e == c) =
      [HipApiEvent.beginEv c t1, HipApiEvent.endEv c t2] ∧ t1 ≤ t2 := by
  have he := hip_api_run_events true trace st st' evs hrun
  subst he
  constructor
  · rw [flatMap_filter_corr, hfilter]
    simp [hipEventsOf]
  · have hsub : (trace.filter (fun inv => inv.corr_id == c)).Pairwise
        (fun a b => a.ts ≤ b.ts) :=
      List.Pairwise.sublist (List.filter_sublist trace) hmono
    rw [hfilter] at hsub
    have := List.pairwise_cons.mp hsub
    exact this.1 ⟨false, ApiPhase.exit, c, t2, some n2⟩ (by simp)

/-- Witness for the C1 theorem at a concrete two-invocation trace. -/
theorem hip_begin_end_paired_witness :
    ([HipApiEvent.beginEv 1 0, HipApiEvent.endEv 1 5].filter
        (fun e => evCorr e == 1)) =
      [HipApiEvent.beginEv 1 0, HipApiEvent.endEv 1 5] ∧ (0 : Nat) ≤ 5 :=
  hip_begin_end_paired
    [⟨false, ApiPhase.enter, 1, 0, some "hipMemcpyAsync"⟩,
     ⟨false, ApiPhase.exit, 1, 5, some "hipMemcpyAsync"⟩]
    [] [1] [HipApiEvent.beginEv 1 0, HipApiEvent.endEv 1 5] 1 0 5
    "hipMemcpyAsync" "hipMemcpyAsync" rfl rfl (by decide)

/-- With empty restrict/include function collections and an exclude
collection matching every function name, one interpreter event is always
consumed without emitting region events and without touching the records
stack: only `ignore_stack_depth` may change. -/
theorem profiler_step_all_excluded (omniPath : String) (dflt : String → Bool)
    (cfg : PyProfConfig) (ev : PyEvent)
    (hro : cfg.restrict_functions = [])
    (hio : cfg.include_functions = [])
    (hex : ∀ s, findMatching cfg.exclude_functions s = true) :
    ∃ d : Int, profiler_function omniPath dflt cfg ev =
      some ({ cfg with ignore_stack_depth := d }, []) := by
  by_cases hfn : ev.frameNone
  · exact ⟨cfg.ignore_stack_depth, by simp [profiler_function, hfn]⟩
  · cases hw : ev.what with
    | none =>
        exact ⟨cfg.ignore_stack_depth, by simp [profiler_function, hfn, hw]⟩
    | some what =>
        by_cases hig : cfg.ignore_stack_depth > 0
        · exact ⟨updateIgnoreDepth what cfg.ignore_stack_depth,
            by simp [profiler_function, hfn, hw, hig]⟩
        · by_cases hc : (!cfg.trace_c &&
              (what == PyWhat.cCallEv || what == PyWhat.cReturnEv)) = true
          · exact ⟨cfg.ignore_stack_depth,
              by simp [profiler_function, hfn, hw, hig, hc]⟩
          · have hincl : findMatching cfg.include_functions ev.funcName = false := by
              rw [hio]; rfl
            have hrestrict : cfg.restrict_functions.isEmpty = true := by
              rw [hro]; rfl
            by_cases hd : dflt ev.funcName
            · exact ⟨cfg.ignore_stack_depth, by
                simp [profiler_function, hfn, hw, hig, hc, hrestrict, hincl,
                  hex ev.funcName, hd]⟩
            · exact ⟨updateIgnoreDepth what cfg.ignore_stack_depth, by
                simp [profiler_function, hfn, hw, hig, hc, hrestrict, hincl,
                  hex ev.funcName, hd]⟩

/-- Claim C8: with `exclude_functions` holding a pattern that matches
every function name (the regex `"^.*$"`) and empty `restrict_functions`,
`include_functions`, `restrict_filenames` and `include_filenames`
collections, processing any interpreter event sequence emits zero region
push/pop events and leaves the records stack untouched. -/
theorem profiler_all_excluded_no_events (omniPath : String) (dflt : String → Bool)
    (cfg : PyProfConfig) (evs : List PyEvent)
    (hro : cfg.restrict_functions = [])
    (hio : cfg.include_functions = [])
    (hrf : cfg.restrict_filenames = [])
    (hif : cfg.include_filenames = [])
    (hex : ∀ s, findMatching cfg.exclude_functions s = true) :
    ∃ cfg', profiler_run omniPath dflt cfg evs = some (cfg', []) ∧
      cfg'.records = cfg.records := by
  induction evs generalizing cfg with
  | nil => exact ⟨cfg, rfl, rfl⟩
  | cons e rest ih =>
      obtain ⟨d, hd⟩ := profiler_step_all_excluded omniPath dflt cfg e hro hio hex
      obtain ⟨cfg', hrun, hrec⟩ :=
        ih { cfg with ignore_stack_depth := d } hro hio hrf hif hex
      refine ⟨cfg', ?_, hrec⟩
      rw [profiler_run]
      simp only [hd, hrun]
      rfl

/-- Witness for the C8 theorem: an all-matching exclude pattern and a
CALL/RETURN pair yield no region events. -/
theorem profiler_all_excluded_no_events_witness :
    ∃ cfg', profiler_run "/opt/omnitrace" (fun s => s == "<module>")
        (PyProfConfig.mk false false false false false false 0 [] [] [] []
          [fun _ => true] [] [])
        [PyEvent.mk false (some PyWhat.callEv) "f" "test.py" 1 "",
         PyEvent.mk false (some PyWhat.returnEv) "f" "test.py" 1 ""] =
          some (cfg', []) ∧
      cfg'.records = (PyProfConfig.mk false false false false false false 0 [] [] [] []
          [fun _ => true] [] []).records :=
  profiler_all_excluded_no_events "/opt/omnitrace" (fun s => s == "<module>")
    (PyProfConfig.mk false false false false false false 0 [] [] [] []
      [fun _ => true] [] [])
    [PyEvent.mk false (some PyWhat.callEv) "f" "test.py" 1 "",
     PyEvent.mk false (some PyWhat.returnEv) "f" "test.py" 1 ""]
    rfl rfl rfl rfl (fun _ => rfl)

/-- Claim C10: a RETURN event that passes every filter (here forced
through by a matching `include_functions` pattern, with the internal-path
filter disabled and a non-empty label) pops the back of the records stack
without an emptiness check; with an empty records stack the unguarded
`records.back()` is reached, which is undefined behaviour, modelled as
`none`. -/
theorem return_empty_records_unguarded (omniPath : String) (dflt : String → Bool)
    (cfg : PyProfConfig) (ev : PyEvent)
    (hfn : ev.frameNone = false)
    (hw : ev.what = some PyWhat.returnEv)
    (hig : cfg.ignore_stack_depth = 0)
    (hro : cfg.restrict_functions = [])
    (hinc : findMatching cfg.include_functions ev.funcName = true)
    (hint : cfg.include_internal = true)
    (hlab : buildLabel cfg ev ≠ "")
    (hrec : cfg.records = []) :
    profiler_function omniPath dflt cfg ev = none := by
  simp [profiler_function, hfn, hw, hig, hro, hinc, hint, hlab, hrec]

/-- Witness for the C10 theorem: a filtered-through RETURN on an empty
records stack reaches the unguarded pop. -/
theorem return_empty_records_unguarded_witness :
    profiler_function "/opt/omnitrace" (fun s => s == "<module>")
      (PyProfConfig.mk false true false false false false 0 [] []
        [fun _ => true] [] [] [] [])
      (PyEvent.mk false (some PyWhat.returnEv) "f" "test.py" 3 "") = none :=
  return_empty_records_unguarded "/opt/omnitrace" (fun s => s == "<module>")
    (PyProfConfig.mk false true false false false false 0 [] []
      [fun _ => true] [] [] [] [])
    (PyEvent.mk false (some PyWhat.returnEv) "f" "test.py" 3 "")
    rfl rfl rfl rfl rfl rfl (by decide) rfl
